import Mathlib

/-!
Verification development for the daily-idea-bot trend pipeline.

The Python modules src/scraper.py, src/analyzer.py and src/main.py are
shallowly embedded below.  External effects (HTTP calls, the LLM call,
the standard-library JSON decoder) are modelled by their outcomes, which
are passed in as explicit arguments of type Except/Option; everything the
repository code itself computes is translated function by function.
Python truthiness tests (on strings, optional strings and optional
integers) are embedded by explicit truthiness predicates.
-/

set_option maxRecDepth 8192

namespace DailyIdeaBot

/-- A single-quote character, used inside log message strings. -/
def sq : String := String.mk [Char.ofNat 39]

/-- Python truthiness of a string: nonempty. -/
def truthyStr (s : String) : Bool := s != ""

/-- Python truthiness of an optional string: present and nonempty. -/
def truthyOptStr : Option String → Bool
  | none => false
  | some s => s != ""

/-- Python truthiness of an optional integer: present and nonzero. -/
def truthyOptInt : Option Int → Bool
  | none => false
  | some n => n != 0

/-- Python `a or b` on optional integers (used for likesCount or viewsCount). -/
def pyOrInt (a b : Option Int) : Option Int :=
  if truthyOptInt a then a else b

/-- Python `s or d` where s is an optional string and d a default string. -/
def pyOrStr (s : Option String) (d : String) : String :=
  match s with
  | none => d
  | some s => if s == "" then d else s

/-- TrendItem dataclass from src/scraper.py. -/
structure TrendItem where
  source : String
  title : String
  url : String
  score : Option Int := none
  description : Option String := none
deriving Repr, DecidableEq

/-- One post record of the Sela scraping API response
(fields read by TwitterScraper.fetch; absent keys are none). -/
structure TweetPost where
  tweetUrl : Option String
  content : Option String
  likesCount : Option Int
  viewsCount : Option Int
deriving Repr, DecidableEq

/-- Python str.startswith, evaluated on the character lists. -/
def pyStartsWith (s pre : String) : Bool := pre.data.isPrefixOf s.data

/-- URL normalization in TwitterScraper.fetch: a nonempty relative path is
prefixed with the platform host. -/
def normalizeTweetUrl (u : String) : String :=
  if truthyStr u && !pyStartsWith u "http" then "https://x.com" ++ u else u

/-- The body of the inner loop of TwitterScraper.fetch: map one API post
record to a TrendItem. -/
def mapTweetPost (name query : String) (item : TweetPost) : TrendItem :=
  { source := name ++ " (" ++ query ++ ")"
    title := (item.content.getD "").take 100
    url := normalizeTweetUrl (item.tweetUrl.getD "")
    score := pyOrInt item.likesCount item.viewsCount
    description := item.content }

/-- The log line printed when one search query of TwitterScraper.fetch
raises. -/
def searchErrorLog (name query e : String) : String :=
  "[" ++ name ++ "] Error searching " ++ sq ++ query ++ sq ++ ": " ++ e

/-- The body of the query loop of TwitterScraper.fetch: on success, append
the mapped posts (capped at post_count); on an exception, log it and keep
the accumulated items. -/
def twitterStep (name : String) (postCount : Nat)
    (acc : List TrendItem × List String) (qr : String × Except String (List TweetPost)) :
    List TrendItem × List String :=
  match qr.2 with
  | .ok posts => (acc.1 ++ (posts.take postCount).map (mapTweetPost name qr.1), acc.2)
  | .error e => (acc.1, acc.2 ++ [searchErrorLog name qr.1 e])

/-- TwitterScraper.fetch.  The per-query network interaction is modelled by
its outcome: for each configured query, either the list of post records the
scrape returned, or the exception message the try block raised.  Returns the
collected TrendItems together with the log lines printed. -/
def twitterFetch (name : String) (selaApiKey : Option String) (postCount : Nat)
    (queryResults : List (String × Except String (List TweetPost))) :
    List TrendItem × List String :=
  if !truthyOptStr selaApiKey then ([], [])
  else queryResults.foldl (twitterStep name postCount) ([], [])

/-- One repository record of the GitHub search response
(fields read by GitHubScraper.fetch). -/
structure Repo where
  full_name : String
  language : Option String
  html_url : String
  stargazers_count : Int
  description : Option String
deriving Repr, DecidableEq

/-- The element mapping of GitHubScraper.fetch. -/
def mapRepo (repo : Repo) : TrendItem :=
  { source := "GitHub"
    title := repo.full_name ++ " - " ++ pyOrStr repo.language "Unknown"
    url := repo.html_url
    score := some repo.stargazers_count
    description := repo.description }

/-- GitHubScraper.fetch.  The single GET and JSON decode are modelled by
their outcome: either the items array of the response (data.get with an
empty-list default), or the exception message the try block raised.
Returns the TrendItems together with the log lines printed. -/
def githubFetch (response : Except String (List Repo)) : List TrendItem × List String :=
  match response with
  | .ok items => ((items.take 10).map mapRepo, [])
  | .error e => ([], ["[GitHub] Error: " ++ e])

/-- The closed set of registered scraper classes. -/
inductive ScraperKind where
  | twitter
  | github
deriving Repr, DecidableEq

/-- The name class attribute of each scraper class. -/
def scraperClassName : ScraperKind → String
  | .twitter => "Twitter/X"
  | .github => "GitHub"

/-- The requires_sela class attribute of each scraper class. -/
def requiresSela : ScraperKind → Bool
  | .twitter => true
  | .github => false

/-- AVAILABLE_SCRAPERS registry from src/scraper.py (insertion order kept). -/
def AVAILABLE_SCRAPERS : List (String × ScraperKind) :=
  [("twitter", .twitter), ("github", .github)]

/-- DEFAULT_SCRAPERS from src/scraper.py. -/
def DEFAULT_SCRAPERS : List String := ["twitter", "github"]

/-- Dictionary membership / lookup in AVAILABLE_SCRAPERS. -/
def lookupScraper (name : String) : Option ScraperKind :=
  (AVAILABLE_SCRAPERS.find? (fun p => p.1 == name)).map (fun p => p.2)

/-- The `enabled_scrapers or DEFAULT_SCRAPERS` default in
TrendScraper.__init__ (Python truthiness: None and the empty list both
fall back to the default). -/
def resolveEnabled (enabled : Option (List String)) : List String :=
  match enabled with
  | none => DEFAULT_SCRAPERS
  | some l => if l.isEmpty then DEFAULT_SCRAPERS else l

/-- The warning printed for an unknown scraper identifier. -/
def unknownWarning (name : String) : String :=
  "Warning: Unknown scraper " ++ sq ++ name ++ sq ++ ", skipping"

/-- The warning printed for a Sela-dependent scraper without an API key. -/
def selaWarning (name : String) : String :=
  "Warning: " ++ sq ++ name ++ sq ++ " requires Sela API key, skipping"

/-- The body of the loop of TrendScraper._init_scrapers. -/
def initStep (selaApiKey : Option String)
    (acc : List ScraperKind × List String) (name : String) :
    List ScraperKind × List String :=
  match lookupScraper name with
  | none => (acc.1, acc.2 ++ [unknownWarning name])
  | some k =>
      if requiresSela k && !truthyOptStr selaApiKey then
        (acc.1, acc.2 ++ [selaWarning name])
      else (acc.1 ++ [k], acc.2)

/-- TrendScraper._init_scrapers: walk the enabled names in order, skipping
unknown names and Sela-dependent scrapers without an API key, each with a
warning.  Returns the live scraper list and the warnings printed. -/
def init_scrapers (enabled : List String) (selaApiKey : Option String) :
    List ScraperKind × List String :=
  enabled.foldl (initStep selaApiKey) ([], [])

/-- The log line printed when a fetch task escapes with an exception. -/
def gatherErrorLog (name e : String) : String :=
  "Error in " ++ name ++ ": " ++ e

/-- The body of the result loop of TrendScraper.get_all_trends: a list
result is concatenated, an exception result is logged. -/
def gatherStep (acc : List TrendItem × List String)
    (sr : String × Except String (List TrendItem)) : List TrendItem × List String :=
  match sr.2 with
  | .ok items => (acc.1 ++ items, acc.2)
  | .error e => (acc.1, acc.2 ++ [gatherErrorLog sr.1 e])

/-- TrendScraper.get_all_trends.  Each live scraper is modelled by its name
together with the outcome of its fetch task under asyncio.gather with
return_exceptions=True: either the returned TrendItem list or the escaped
exception message.  Returns the concatenated trends and the log lines. -/
def get_all_trends (scrapers : List (String × Except String (List TrendItem))) :
    List TrendItem × List String :=
  if scrapers.isEmpty then ([], ["Warning: No scrapers enabled"])
  else scrapers.foldl gatherStep ([], [])

/-- The action DailyIdeaService._generate_and_send_ideas takes right after
collection: with no trends it sends the nothing-collected notice and
returns, otherwise it proceeds to the generation call. -/
inductive PipelineStep where
  | sendErrorNotice (msg : String)
  | generateAndSend (trends : List TrendItem)
deriving Repr, DecidableEq

/-- The branch on the collected trends in
DailyIdeaService._generate_and_send_ideas (src/main.py). -/
def generate_and_send_ideas (trends : List TrendItem) : PipelineStep :=
  if trends.isEmpty then .sendErrorNotice "트렌드를 수집하지 못했습니다."
  else .generateAndSend trends

/-- JSON values, as produced by the standard-library JSON decoder
(object key order kept). -/
inductive Json where
  | null
  | bool (b : Bool)
  | num (n : Int)
  | str (s : String)
  | arr (items : List Json)
  | obj (fields : List (String × Json))

/-- Dictionary get on a decoded JSON object (none when the key is absent
or the value is not an object). -/
def Json.get (j : Json) (key : String) : Option Json :=
  match j with
  | .obj fields => (fields.find? (fun p => p.1 == key)).map (fun p => p.2)
  | _ => none

/-- IdeaSuggestion pydantic model from src/analyzer.py. -/
structure IdeaSuggestion where
  title : String
  description : String
  why_now : String
  difficulty : String
  tech_stack : List String
  first_step : String
deriving Repr, DecidableEq

/-- AnalysisResult pydantic model from src/analyzer.py. -/
structure AnalysisResult where
  trend_summary : String
  ideas : List IdeaSuggestion
deriving Repr, DecidableEq

/-- Read a required string field, as pydantic validation does. -/
def getStrField (j : Json) (key : String) : Option String :=
  match j.get key with
  | some (.str s) => some s
  | _ => none

/-- A JSON array whose members are all strings, as a string list. -/
def allStrings : List Json → Option (List String)
  | [] => some []
  | .str s :: rest => (allStrings rest).map (fun l => s :: l)
  | _ :: _ => none

/-- Read a required list-of-strings field, as pydantic validation does. -/
def getStrListField (j : Json) (key : String) : Option (List String) :=
  match j.get key with
  | some (.arr xs) => allStrings xs
  | _ => none

/-- Pydantic validation of one IdeaSuggestion record. -/
def validateIdea (j : Json) : Option IdeaSuggestion :=
  (getStrField j "title").bind (fun t =>
  (getStrField j "description").bind (fun d =>
  (getStrField j "why_now").bind (fun w =>
  (getStrField j "difficulty").bind (fun df =>
  (getStrListField j "tech_stack").bind (fun ts =>
  (getStrField j "first_step").map (fun fs =>
    { title := t, description := d, why_now := w, difficulty := df,
      tech_stack := ts, first_step := fs }))))))

/-- Pydantic validation of each element of the ideas array in turn. -/
def validateIdeaList : List Json → Option (List IdeaSuggestion)
  | [] => some []
  | j :: rest => (validateIdea j).bind (fun i => (validateIdeaList rest).map (fun l => i :: l))

/-- Pydantic validation of the AnalysisResult model. -/
def validateAnalysis (j : Json) : Option AnalysisResult :=
  (getStrField j "trend_summary").bind (fun s =>
    match j.get "ideas" with
    | some (.arr xs) =>
        (validateIdeaList xs).map (fun ideas => { trend_summary := s, ideas := ideas })
    | _ => none)

/-- Outcome of the parse step of TrendAnalyzer.analyze_and_generate:
either a parsed AnalysisResult, the ValueError raised by the except
handler (carrying the original parse error and the raw response text), or
a pydantic ValidationError that escapes the handler uncaught (the except
clause catches only json.JSONDecodeError and TypeError). -/
inductive ParseOutcome where
  | ok (result : AnalysisResult)
  | generationError (err : String) (raw : String)
  | uncaughtValidationError
deriving Repr, DecidableEq

/-- The parse step of TrendAnalyzer.analyze_and_generate.  The call to
json.loads on the raw response text is modelled by its outcome: either the
decoded Json value, or the JSONDecodeError message.  A decoded value that
is not an object makes the double-star unpacking raise TypeError, which
the except clause also converts to the ValueError; an object failing
pydantic validation raises ValidationError, which no clause catches. -/
def parse_response (raw : String) (decoded : Except String Json) : ParseOutcome :=
  match decoded with
  | .error e => .generationError ("Failed to parse Gemini response: " ++ e) raw
  | .ok j =>
      match j with
      | .obj _ =>
          match validateAnalysis j with
          | some r => .ok r
          | none => .uncaughtValidationError
      | _ => .generationError ("Failed to parse Gemini response: TypeError") raw

/-- Serialize one IdeaSuggestion back to JSON (used to express that every
structurally well-formed response parses, whatever the idea count). -/
def encodeIdea (i : IdeaSuggestion) : Json :=
  .obj [("title", .str i.title), ("description", .str i.description),
        ("why_now", .str i.why_now), ("difficulty", .str i.difficulty),
        ("tech_stack", .arr (i.tech_stack.map Json.str)),
        ("first_step", .str i.first_step)]

/-- Serialize an AnalysisResult back to JSON. -/
def encodeAnalysis (summary : String) (ideas : List IdeaSuggestion) : Json :=
  .obj [("trend_summary", .str summary), ("ideas", .arr (ideas.map encodeIdea))]

/-- One iteration of the grouping loop of TrendAnalyzer._format_trends:
Python dict insertion order, appending the item to the bucket of its source. -/
def groupInsert (grouped : List (String × List TrendItem)) (t : TrendItem) :
    List (String × List TrendItem) :=
  if grouped.any (fun p => p.1 == t.source) then
    grouped.map (fun p => if p.1 == t.source then (p.1, p.2 ++ [t]) else p)
  else grouped ++ [(t.source, [t])]

/-- The grouping loop of TrendAnalyzer._format_trends. -/
def groupBySource (trends : List TrendItem) : List (String × List TrendItem) :=
  trends.foldl groupInsert []

/-- The score suffix of one formatted line (Python truthiness on score). -/
def scoreStr (t : TrendItem) : String :=
  if truthyOptInt t.score then " (score: " ++ toString (t.score.getD 0) ++ ")" else ""

/-- The description follow-up of one formatted line (Python truthiness on
description). -/
def descStr (t : TrendItem) : String :=
  if truthyOptStr t.description then "\n   " ++ (t.description.getD "").take 100 ++ "..." else ""

/-- One formatted item line of TrendAnalyzer._format_trends. -/
def renderItem (t : TrendItem) : String :=
  "- " ++ t.title ++ scoreStr t ++ descStr t

/-- The lines one source group contributes: heading, first ten items, blank. -/
def groupLines (p : String × List TrendItem) : List String :=
  ("### " ++ p.1) :: ((p.2.take 10).map renderItem ++ [""])

/-- TrendAnalyzer._format_trends. -/
def format_trends (trends : List TrendItem) : String :=
  String.intercalate "\n" ((groupBySource trends).flatMap groupLines)

/-- Source labels in order of first appearance (spec wording: insertion
order of first appearance, each label once). -/
def firstKeys : List String → List String
  | [] => []
  | s :: rest => s :: (firstKeys rest).filter (fun x => x != s)

/-- Formatting digest as the spec describes it: for each source label in
first-appearance order, the heading exactly once, then the first ten of
the items of that label in their original order, then a blank line. -/
def specFormat (trends : List TrendItem) : String :=
  String.intercalate "\n"
    ((firstKeys (trends.map (fun t => t.source))).flatMap (fun s =>
      ("### " ++ s) :: (((trends.filter (fun t => t.source == s)).take 10).map renderItem ++ [""])))

/-- The grouping as the spec describes it: for each source label in order
of first appearance, the sublist of items carrying that label. -/
def canonGroups (trends : List TrendItem) : List (String × List TrendItem) :=
  (firstKeys (trends.map (fun t => t.source))).map
    (fun s => (s, trends.filter (fun t => t.source == s)))

/-! Theorems. -/

/-- A loop body that appends to both accumulator components turns the loop
into one concatenation per component. -/
theorem foldl_pair_append {α β γ : Type} (f : List β × List γ → α → List β × List γ)
    (g : α → List β) (h : α → List γ)
    (hf : ∀ acc x, f acc x = (acc.1 ++ g x, acc.2 ++ h x)) :
    ∀ (l : List α) (a : List β) (b : List γ),
      l.foldl f (a, b) = (a ++ l.flatMap g, b ++ l.flatMap h) := by
  intro l
  induction l with
  | nil => intro a b; simp
  | cons hd tl ih =>
    intro a b
    rw [List.foldl_cons, hf, ih]
    simp

/-- Flat-mapping the singleton list of an optional value is filterMap. -/
theorem flatMap_option_toList {α β : Type} (p : α → Option β) (l : List α) :
    l.flatMap (fun x => (p x).toList) = l.filterMap p := by
  induction l with
  | nil => rfl
  | cons hd tl ih => cases hp : p hd <;> simp [hp, ih]

/-- gatherStep appends the ok items to the trends and the error log line
to the log. -/
theorem gatherStep_append (acc : List TrendItem × List String)
    (sr : String × Except String (List TrendItem)) :
    gatherStep acc sr
      = (acc.1 ++ (match sr.2 with | .ok items => items | .error _ => []),
         acc.2 ++ ((match sr.2 with
                    | .ok _ => none
                    | .error e => some (gatherErrorLog sr.1 e)) : Option String).toList) := by
  obtain ⟨nm, r⟩ := sr
  cases r <;> simp [gatherStep]

/-- C1: get_all_trends terminates and returns the concatenation of each
list of each non-raising source, in declaration order with within-source order
kept; a raising source contributes nothing and is logged as
Error in name: error. -/
theorem get_all_trends_concat_in_order
    (scrapers : List (String × Except String (List TrendItem))) :
    (get_all_trends scrapers).1
      = scrapers.flatMap (fun sr => match sr.2 with | .ok items => items | .error _ => []) ∧
    (get_all_trends scrapers).2
      = (if scrapers.isEmpty then ["Warning: No scrapers enabled"]
         else scrapers.filterMap (fun sr =>
           match sr.2 with
           | .ok _ => none
           | .error e => some (gatherErrorLog sr.1 e))) := by
  unfold get_all_trends
  cases scrapers with
  | nil => simp
  | cons hd tl =>
    have hfold := foldl_pair_append gatherStep
      (fun sr => match sr.2 with | .ok items => items | .error _ => [])
      (fun sr => ((match sr.2 with
                   | .ok _ => none
                   | .error e => some (gatherErrorLog sr.1 e)) : Option String).toList)
      gatherStep_append (hd :: tl) [] []
    rw [hfold]
    simp [flatMap_option_toList]

/-- initStep appends the constructed scraper or the warning. -/
theorem initStep_append (selaApiKey : Option String)
    (acc : List ScraperKind × List String) (name : String) :
    initStep selaApiKey acc name
      = (acc.1 ++ ((lookupScraper name).bind (fun k =>
            if requiresSela k && !truthyOptStr selaApiKey then none else some k)).toList,
         acc.2 ++ ((match lookupScraper name with
                    | none => some (unknownWarning name)
                    | some k =>
                        if requiresSela k && !truthyOptStr selaApiKey then
                          some (selaWarning name)
                        else none) : Option String).toList) := by
  cases h : lookupScraper name with
  | none => simp [initStep, h]
  | some k =>
    cases hreq : requiresSela k <;> cases hkey : truthyOptStr selaApiKey <;>
      simp [initStep, h, hreq, hkey]

/-- C3: registry resolution skips unknown identifiers and
credential-requiring identifiers without a (truthy) credential, each with
a warning; the live list keeps the input order; the default enabled set
is twitter then github; an absent and an empty credential both exclude
the Sela-dependent source entirely. -/
theorem init_scrapers_skips_and_keeps_order
    (enabled : List String) (selaApiKey : Option String) :
    (init_scrapers enabled selaApiKey).1
      = enabled.filterMap (fun name =>
          (lookupScraper name).bind (fun k =>
            if requiresSela k && !truthyOptStr selaApiKey then none else some k)) ∧
    (init_scrapers enabled selaApiKey).2
      = enabled.filterMap (fun name =>
          match lookupScraper name with
          | none => some (unknownWarning name)
          | some k =>
              if requiresSela k && !truthyOptStr selaApiKey then some (selaWarning name)
              else none) ∧
    resolveEnabled none = ["twitter", "github"] ∧
    init_scrapers ["twitter"] none = ([], [selaWarning "twitter"]) ∧
    init_scrapers ["twitter"] (some "") = ([], [selaWarning "twitter"]) := by
  have hfold := foldl_pair_append (initStep selaApiKey)
    (fun name => ((lookupScraper name).bind (fun k =>
        if requiresSela k && !truthyOptStr selaApiKey then none else some k)).toList)
    (fun name => ((match lookupScraper name with
                   | none => some (unknownWarning name)
                   | some k =>
                       if requiresSela k && !truthyOptStr selaApiKey then
                         some (selaWarning name)
                       else none) : Option String).toList)
    (initStep_append selaApiKey) enabled [] []
  refine ⟨?_, ?_, rfl, rfl, rfl⟩ <;>
    simp only [init_scrapers, hfold, flatMap_option_toList, List.nil_append]

/-- C7: with zero live scrapers, collection logs the warning and returns
the empty list; with zero collected items the pipeline sends the
nothing-collected notice instead of calling generation, and with at least
one item it proceeds to generation. -/
theorem empty_collection_short_circuits :
    get_all_trends [] = ([], ["Warning: No scrapers enabled"]) ∧
    generate_and_send_ideas [] = .sendErrorNotice "트렌드를 수집하지 못했습니다." ∧
    (∀ (t : TrendItem) (ts : List TrendItem),
      generate_and_send_ideas (t :: ts) = .generateAndSend (t :: ts)) :=
  ⟨rfl, rfl, fun _ _ => rfl⟩

/-- twitterStep appends the mapped posts or the per-query error log line. -/
theorem twitterStep_append (name : String) (postCount : Nat)
    (acc : List TrendItem × List String) (qr : String × Except String (List TweetPost)) :
    twitterStep name postCount acc qr
      = (acc.1 ++ (match qr.2 with
                   | .ok posts => (posts.take postCount).map (mapTweetPost name qr.1)
                   | .error _ => []),
         acc.2 ++ ((match qr.2 with
                    | .ok _ => none
                    | .error e => some (searchErrorLog name qr.1 e)) : Option String).toList) := by
  obtain ⟨q, r⟩ := qr
  cases r <;> simp [twitterStep]

/-- C6: with a truthy credential, a failing query is caught and logged
independently and the fetch still returns, in query order, the
concatenation of the mapped items of every non-failing query. -/
theorem twitterFetch_isolates_query_failures (name : String) (selaApiKey : Option String)
    (postCount : Nat) (queryResults : List (String × Except String (List TweetPost)))
    (hkey : truthyOptStr selaApiKey = true) :
    (twitterFetch name selaApiKey postCount queryResults).1
      = queryResults.flatMap (fun qr =>
          match qr.2 with
          | .ok posts => (posts.take postCount).map (mapTweetPost name qr.1)
          | .error _ => []) ∧
    (twitterFetch name selaApiKey postCount queryResults).2
      = queryResults.filterMap (fun qr =>
          match qr.2 with
          | .ok _ => none
          | .error e => some (searchErrorLog name qr.1 e)) := by
  have hfold := foldl_pair_append (twitterStep name postCount)
    (fun qr => match qr.2 with
               | .ok posts => (posts.take postCount).map (mapTweetPost name qr.1)
               | .error _ => [])
    (fun qr => ((match qr.2 with
                 | .ok _ => none
                 | .error e => some (searchErrorLog name qr.1 e)) : Option String).toList)
    (twitterStep_append name postCount) queryResults [] []
  unfold twitterFetch
  rw [hkey]
  simp only [Bool.not_true, Bool.false_eq_true, if_false, hfold, flatMap_option_toList,
    List.nil_append]
  constructor <;> first | rfl | trivial

/-- Witness for C6 at a concrete input: the second of three queries fails
and the items of the first and third queries survive in query order. -/
theorem twitterFetch_isolates_query_failures_witness :
    (twitterFetch "Twitter/X" (some "key") 5
      [("q1", .ok [⟨some "/a/1", some "hello world", some 3, none⟩]),
       ("q2", .error "boom"),
       ("q3", .ok [⟨none, none, none, some 7⟩])]).1
      = [⟨"Twitter/X (q1)", "hello world", "https://x.com/a/1", some 3, some "hello world"⟩,
         ⟨"Twitter/X (q3)", "", "", some 7, none⟩] ∧
    (twitterFetch "Twitter/X" (some "key") 5
      [("q1", .ok [⟨some "/a/1", some "hello world", some 3, none⟩]),
       ("q2", .error "boom"),
       ("q3", .ok [⟨none, none, none, some 7⟩])]).2
      = [searchErrorLog "Twitter/X" "q2" "boom"] := by
  have h := twitterFetch_isolates_query_failures "Twitter/X" (some "key") 5
    [("q1", .ok [⟨some "/a/1", some "hello world", some 3, none⟩]),
     ("q2", .error "boom"),
     ("q3", .ok [⟨none, none, none, some 7⟩])] (by decide)
  rw [h.1, h.2]
  constructor <;> decide

/-- C5 counterexample: a post whose likes-count is present but zero is
mapped with the views-count as its score, not the likes-count. -/
theorem mapTweetPost_zero_likes_counterexample :
    (⟨some "/p/1", some "post", some 0, some 5⟩ : TweetPost).likesCount = some 0 ∧
    (mapTweetPost "Twitter/X" "AI agent" ⟨some "/p/1", some "post", some 0, some 5⟩).score
      = some 5 ∧
    (mapTweetPost "Twitter/X" "AI agent" ⟨some "/p/1", some "post", some 0, some 5⟩).score
      ≠ (⟨some "/p/1", some "post", some 0, some 5⟩ : TweetPost).likesCount := by
  refine ⟨rfl, rfl, ?_⟩
  decide

/-- C5 (amended): the url of the mapped item is made absolute exactly when the
returned path is nonempty and not already absolute, its score is the
likes-count when that is present and nonzero and the views-count
otherwise, its title is the first 100 characters of the post text, and
its source label is qualified with the query. -/
theorem mapTweetPost_field_mapping (name query : String) (p : TweetPost) :
    (mapTweetPost name query p).source = name ++ " (" ++ query ++ ")" ∧
    (mapTweetPost name query p).title = (p.content.getD "").take 100 ∧
    (mapTweetPost name query p).description = p.content ∧
    (mapTweetPost name query p).score
      = (if p.likesCount = none ∨ p.likesCount = some 0 then p.viewsCount else p.likesCount) ∧
    (mapTweetPost name query p).url
      = (if p.tweetUrl.getD "" ≠ "" ∧ pyStartsWith (p.tweetUrl.getD "") "http" = false
         then "https://x.com" ++ p.tweetUrl.getD "" else p.tweetUrl.getD "") := by
  obtain ⟨tu, c, lk, vw⟩ := p
  simp only [mapTweetPost]
  refine ⟨trivial, trivial, trivial, ?_, ?_⟩
  · rcases lk with _ | n
    · simp [pyOrInt, truthyOptInt]
    · rcases eq_or_ne n 0 with hn | hn <;> simp [pyOrInt, truthyOptInt, hn]
  · rcases hs : pyStartsWith (tu.getD "") "http" with _ | _ <;>
    rcases he : decide (tu.getD "" = "") with _ | _ <;>
      simp_all [normalizeTweetUrl, truthyStr, bne_iff_ne]

/-- C8 counterexample: a repository whose language field is present but
the empty string gets Unknown substituted in its title, although the
language is not null. -/
theorem mapRepo_empty_language_counterexample :
    (⟨"alice/tool", some "", "https://g", 7, none⟩ : Repo).language ≠ none ∧
    (mapRepo ⟨"alice/tool", some "", "https://g", 7, none⟩).title = "alice/tool - Unknown" ∧
    (mapRepo ⟨"alice/tool", some "", "https://g", 7, none⟩).title
      ≠ "alice/tool - " ++ (⟨"alice/tool", some "", "https://g", 7, none⟩ : Repo).language.getD "" := by
  refine ⟨by decide, rfl, by decide⟩

/-- C8 (amended): the fetch maps at most the first 10 result items, each
with score equal to the stargazers count and title full_name dash
language, where Unknown is substituted when language is null or empty;
an empty items array yields an empty list and no error log. -/
theorem githubFetch_maps_first_ten (items : List Repo) :
    (githubFetch (.ok items)).1 = (items.take 10).map mapRepo ∧
    (githubFetch (.ok items)).2 = [] ∧
    githubFetch (.ok []) = ([], []) ∧
    ∀ r : Repo,
      (mapRepo r).score = some r.stargazers_count ∧
      (mapRepo r).url = r.html_url ∧
      (mapRepo r).title
        = r.full_name ++ " - "
          ++ (if r.language = none ∨ r.language = some "" then "Unknown" else r.language.getD "") := by
  refine ⟨rfl, rfl, rfl, fun r => ⟨rfl, rfl, ?_⟩⟩
  show r.full_name ++ " - " ++ pyOrStr r.language "Unknown" = _
  rcases hl : r.language with _ | s
  · simp [pyOrStr]
  · rcases eq_or_ne s "" with hs | hs <;> simp [pyOrStr, hs]

/-- C2: a decoded object missing the ideas key fails pydantic validation,
and that ValidationError escapes the except clause uncaught: the parse
step neither wraps it into the GenerationError carrying the raw text nor
returns a result.  A JSON decode failure, by contrast, is wrapped into
the GenerationError carrying the original error and the raw text. -/
theorem parse_missing_ideas_escapes_uncaught :
    parse_response "\x7b\x22trend_summary\x22: \x22s\x22\x7d"
        (.ok (.obj [("trend_summary", .str "s")]))
      = .uncaughtValidationError ∧
    (∀ err raw : String,
      parse_response "\x7b\x22trend_summary\x22: \x22s\x22\x7d"
          (.ok (.obj [("trend_summary", .str "s")]))
        ≠ .generationError err raw) ∧
    (∀ r : AnalysisResult,
      parse_response "\x7b\x22trend_summary\x22: \x22s\x22\x7d"
          (.ok (.obj [("trend_summary", .str "s")]))
        ≠ .ok r) ∧
    (∀ raw e : String, parse_response raw (.error e)
      = .generationError ("Failed to parse Gemini response: " ++ e) raw) := by
  have h1 : parse_response "\x7b\x22trend_summary\x22: \x22s\x22\x7d"
      (.ok (.obj [("trend_summary", .str "s")])) = .uncaughtValidationError := rfl
  refine ⟨h1, ?_, ?_, fun raw e => rfl⟩
  · intro err raw hx
    rw [h1] at hx
    exact ParseOutcome.noConfusion hx
  · intro r hx
    rw [h1] at hx
    exact ParseOutcome.noConfusion hx

/-- C9 counterexample: a structurally valid response whose ideas array is
empty parses successfully into a result with zero ideas, not three. -/
theorem parse_empty_ideas_counterexample :
    parse_response "\x7b\x22trend_summary\x22: \x22s\x22, \x22ideas\x22: []\x7d"
        (.ok (.obj [("trend_summary", .str "s"), ("ideas", .arr [])]))
      = .ok { trend_summary := "s", ideas := [] } ∧
    ({ trend_summary := "s", ideas := [] } : AnalysisResult).ideas.length ≠ 3 :=
  ⟨rfl, by decide⟩

/-- Serializing a string list and validating it back is the identity. -/
theorem allStrings_map_str (l : List String) :
    allStrings (l.map Json.str) = some l := by
  induction l with
  | nil => rfl
  | cons hd tl ih => simp [allStrings, ih]

/-- Serializing one idea and validating it back is the identity. -/
theorem validateIdea_encodeIdea (i : IdeaSuggestion) :
    validateIdea (encodeIdea i) = some i := by
  have hts : getStrListField (encodeIdea i) "tech_stack"
      = allStrings (i.tech_stack.map Json.str) := rfl
  unfold validateIdea
  simp only [hts, allStrings_map_str]
  rfl

/-- Serializing an idea list and validating it back is the identity. -/
theorem validateIdeaList_map (ideas : List IdeaSuggestion) :
    validateIdeaList (ideas.map encodeIdea) = some ideas := by
  induction ideas with
  | nil => rfl
  | cons hd tl ih => simp [validateIdeaList, validateIdea_encodeIdea, ih]

/-- Serializing an AnalysisResult and validating it back is the identity. -/
theorem validateAnalysis_encode (s : String) (ideas : List IdeaSuggestion) :
    validateAnalysis (encodeAnalysis s ideas)
      = some { trend_summary := s, ideas := ideas } := by
  have h1 : getStrField (encodeAnalysis s ideas) "trend_summary" = some s := rfl
  have h2 : (encodeAnalysis s ideas).get "ideas"
      = some (.arr (ideas.map encodeIdea)) := rfl
  unfold validateAnalysis
  simp only [h1, h2]
  simp [validateIdeaList_map]

/-- The parse step succeeds on any object passing pydantic validation. -/
theorem parse_response_ok (raw : String) (fields : List (String × Json)) (r : AnalysisResult)
    (hv : validateAnalysis (.obj fields) = some r) :
    parse_response raw (.ok (.obj fields)) = .ok r := by
  simp [parse_response, hv]

/-- C9 (amended): the parse step places no constraint on the number of
ideas; a structurally valid response containing any idea list parses
successfully into exactly that list. -/
theorem parse_accepts_any_idea_count (raw summary : String) (ideas : List IdeaSuggestion) :
    parse_response raw (.ok (encodeAnalysis summary ideas))
      = .ok { trend_summary := summary, ideas := ideas } :=
  parse_response_ok raw _ _ (validateAnalysis_encode summary ideas)

/-- C10: the rendered digest decides presence by truthiness, not field
presence: a zero score renders identically to an absent score, and an
empty-string description renders identically to an absent description. -/
theorem formatting_uses_truthiness (src title url : String) (d : Option String)
    (sc : Option Int) :
    renderItem ⟨src, title, url, some 0, d⟩ = renderItem ⟨src, title, url, none, d⟩ ∧
    renderItem ⟨src, title, url, sc, some ""⟩ = renderItem ⟨src, title, url, sc, none⟩ ∧
    scoreStr ⟨src, title, url, some 0, d⟩ = "" ∧
    descStr ⟨src, title, url, sc, some ""⟩ = "" ∧
    format_trends [⟨src, title, url, some 0, some ""⟩]
      = format_trends [⟨src, title, url, none, none⟩] := by
  refine ⟨?_, ?_, ?_, ?_, ?_⟩ <;>
    simp [renderItem, scoreStr, descStr, truthyOptInt, truthyOptStr, format_trends,
      groupBySource, groupInsert, groupLines]

/-- Membership in firstKeys is membership in the underlying list. -/
theorem mem_firstKeys (x : String) (l : List String) : x ∈ firstKeys l ↔ x ∈ l := by
  induction l with
  | nil => simp [firstKeys]
  | cons s rest ih =>
    simp only [firstKeys, List.mem_cons, List.mem_filter, ih, bne_iff_ne]
    constructor
    · rintro (h | ⟨h, _⟩)
      · exact Or.inl h
      · exact Or.inr h
    · rintro (h | h)
      · exact Or.inl h
      · by_cases hx : x = s
        · exact Or.inl hx
        · exact Or.inr ⟨h, hx⟩

/-- firstKeys has no duplicate labels. -/
theorem firstKeys_nodup (l : List String) : (firstKeys l).Nodup := by
  induction l with
  | nil => simp [firstKeys]
  | cons s rest ih =>
    rw [firstKeys, List.nodup_cons]
    refine ⟨?_, ih.filter _⟩
    simp [List.mem_filter]

/-- Appending one label to the scanned list either leaves firstKeys
unchanged (label already seen) or appends it at the end. -/
theorem firstKeys_append_singleton (l : List String) (x : String) :
    firstKeys (l ++ [x]) = if x ∈ l then firstKeys l else firstKeys l ++ [x] := by
  induction l with
  | nil => simp [firstKeys]
  | cons s rest ih =>
    have hstep : ∀ m : List String,
        firstKeys (s :: m) = s :: (firstKeys m).filter (fun y => y != s) := fun m => rfl
    rw [List.cons_append, hstep, ih, hstep]
    by_cases hx : x ∈ rest
    · rw [if_pos hx, if_pos (List.mem_cons_of_mem s hx)]
    · rw [if_neg hx]
      by_cases hxs : x = s
      · rw [if_pos (by simp [hxs])]
        subst hxs
        rw [List.filter_append]
        simp
      · rw [if_neg (by simp [hxs, hx]), List.filter_append]
        simp [hxs]

/-- One step of the Python grouping dict equals one label-append on the
spec-side grouping. -/
theorem groupInsert_canon (pre : List TrendItem) (t : TrendItem) :
    groupInsert (canonGroups pre) t = canonGroups (pre ++ [t]) := by
  unfold canonGroups groupInsert
  by_cases hmem : t.source ∈ pre.map (fun x => x.source)
  · have hany : ((firstKeys (pre.map (fun x => x.source))).map
        (fun s => (s, pre.filter (fun x => x.source == s)))).any
          (fun p => p.1 == t.source) = true := by
      simp only [List.any_eq_true]
      refine ⟨(t.source, pre.filter (fun x => x.source == t.source)), ?_, by simp⟩
      exact List.mem_map.mpr ⟨t.source, (mem_firstKeys _ _).mpr hmem, rfl⟩
    rw [if_pos hany]
    have hkeys : firstKeys ((pre ++ [t]).map (fun x => x.source))
        = firstKeys (pre.map (fun x => x.source)) := by
      rw [List.map_append, List.map_cons, List.map_nil, firstKeys_append_singleton,
        if_pos hmem]
    rw [hkeys, List.map_map]
    apply List.map_congr_left
    intro s hs
    simp only [Function.comp, List.filter_append]
    by_cases hst : s = t.source
    · subst hst
      simp [List.filter_cons]
    · have h1 : (s == t.source) = false := by simp [hst]
      have h2 : (t.source == s) = false := by simp [Ne.symm hst]
      simp [h1, List.filter_cons, h2]
  · have hany : ((firstKeys (pre.map (fun x => x.source))).map
        (fun s => (s, pre.filter (fun x => x.source == s)))).any
          (fun p => p.1 == t.source) = false := by
      simp only [List.any_eq_false]
      intro q hq
      obtain ⟨s, hs, rfl⟩ := List.mem_map.mp hq
      have hne : s ≠ t.source := by
        intro he
        exact hmem (he ▸ (mem_firstKeys _ _).mp hs)
      simp [hne]
    rw [if_neg (by simp [hany])]
    have hkeys : firstKeys ((pre ++ [t]).map (fun x => x.source))
        = firstKeys (pre.map (fun x => x.source)) ++ [t.source] := by
      rw [List.map_append, List.map_cons, List.map_nil, firstKeys_append_singleton,
        if_neg hmem]
    rw [hkeys, List.map_append]
    have hnil : pre.filter (fun x => x.source == t.source) = [] := by
      rw [List.filter_eq_nil_iff]
      intro a ha hba
      exact hmem (List.mem_map.mpr ⟨a, ha, by simpa using hba⟩)
    congr 1
    · apply List.map_congr_left
      intro s hs
      have hne : t.source ≠ s := by
        intro he
        exact hmem (he ▸ (mem_firstKeys _ _).mp hs)
      have h2 : (t.source == s) = false := by simp [hne]
      simp [List.filter_append, List.filter_cons, h2]
    · simp [List.filter_append, List.filter_cons, hnil]

/-- Folding the grouping step over the remaining items extends the
spec-side grouping. -/
theorem foldl_groupInsert_canon (rest : List TrendItem) :
    ∀ pre : List TrendItem,
      rest.foldl groupInsert (canonGroups pre) = canonGroups (pre ++ rest) := by
  induction rest with
  | nil => intro pre; simp
  | cons t rest ih =>
    intro pre
    rw [List.foldl_cons, groupInsert_canon, ih]
    exact congrArg canonGroups (by simp)

/-- The Python grouping dict equals the spec-side grouping. -/
theorem groupBySource_canon (trends : List TrendItem) :
    groupBySource trends = canonGroups trends := by
  have h := foldl_groupInsert_canon trends []
  simpa [groupBySource, canonGroups, firstKeys] using h

/-- C4: the formatted digest groups items by source label in order of
first appearance, emits each heading exactly once (the label list has no
duplicates), caps each group at its first 10 items in original order, and
renders each item as its title with the optional score suffix and the
optional truncated-description follow-up line. -/
theorem format_trends_matches_spec (trends : List TrendItem) :
    format_trends trends = specFormat trends ∧
    (firstKeys (trends.map (fun t => t.source))).Nodup := by
  refine ⟨?_, firstKeys_nodup _⟩
  unfold format_trends specFormat
  rw [groupBySource_canon, canonGroups, List.flatMap_map]
  rfl

end DailyIdeaBot
